import Mathlib

/-!
Verification of the CalcBot edge proxy request pipeline.

The development shallowly embeds the Cloudflare Worker
`src/workers/api-proxy.js` (the OpenRouter variant) together with the
`validateContents` validator of `src/services/openRouterService.ts`, and —
for components of the deployed worker that are documented in the repository
but whose code is not checked in (health endpoint, content-based model
router, response cache) — spec-modelled definitions, each marked as such in
its doc comment.

Modelling conventions:
* JSON values are a first-order inductive (`Json`); well-formed arrays and
  objects are `arrCons`/`objCons` chains ending in `arrNil`/`objNil`.
* JS numbers are exact fractions (`JsNum`); `NaN` is modelled as `none` of
  `Option JsNum` where arithmetic can produce it.  JS coercions that are
  unreachable on the worker's data (string concatenation in `+`, boolean
  coercion, radix prefixes in `parseInt`) are modelled as `NaN`.
* The shared KV store holds parsed JSON values; `JSON.stringify` and
  `JSON.parse` at the store boundary are the identity on this
  representation.  Store unavailability is modelled by per-key failure
  lists: a `get`/`put` on a listed key throws.
* An exception escaping the worker's `fetch` handler is `Except.error ()`;
  the response headers (constant CORS set) are not modelled.
-/

/-- JS number modelled as an exact fraction (numerator over positive
denominator).  All numbers the pipeline computes with are integers
(denominator 1); the only non-integer values are the literal constants
0.7, 0.5 and 0.1, which are never used in arithmetic. -/
structure JsNum where
  n : Int
  d : Nat
deriving Repr, DecidableEq

/-- Sum of two JS numbers (exact; no overflow modelling). -/
def JsNum.add (a b : JsNum) : JsNum := ⟨a.n * b.d + b.n * a.d, a.d * b.d⟩

/-- Strict order on JS numbers by cross multiplication (valid for the
positive denominators the pipeline constructs). -/
def JsNum.gt (a b : JsNum) : Bool := a.n * (b.d : Int) > b.n * (a.d : Int)

/-- JSON values, first-order: arrays and objects are cons chains so that
all recursion over them is structural. -/
inductive Json where
  | null
  | bool (b : Bool)
  | num (q : JsNum)
  | str (s : String)
  | arrNil
  | arrCons (head : Json) (tail : Json)
  | objNil
  | objCons (key : String) (val : Json) (tail : Json)
deriving Repr, DecidableEq

/-- Integer JSON number. -/
def Json.int (n : Int) : Json := .num ⟨n, 1⟩

/-- Build a JSON array from a list. -/
def Json.arr : List Json → Json := fun xs => xs.foldr .arrCons .arrNil

/-- Build a JSON object from a field list. -/
def Json.obj : List (String × Json) → Json := fun fs =>
  fs.foldr (fun f t => .objCons f.1 f.2 t) .objNil

/-- Property access `j.k`: the first binding of `k` in an object, else
`undefined` (`none`).  Mirrors JS property access on the worker's data. -/
def Json.getField : Json → String → Option Json
  | .objCons k v t, key => if k = key then some v else t.getField key
  | _, _ => none

/-- Index access `j[i]` on an array, else `undefined`.  (JS string indexing
is not modelled; the worker never indexes strings.) -/
def Json.getIdx : Json → Nat → Option Json
  | .arrCons h _, 0 => some h
  | .arrCons _ t, n + 1 => t.getIdx n
  | _, _ => none

/-- View a JSON value as an array (a proper `arrCons` chain). -/
def Json.asArray : Json → Option (List Json)
  | .arrNil => some []
  | .arrCons h t => (Json.asArray t).map (h :: ·)
  | _ => none

/-- JS truthiness of a JSON value (`NaN` is not representable; the worker
never branches on a `NaN`). -/
def jsTruthy : Json → Bool
  | .null => false
  | .bool b => b
  | .num q => q.n ≠ 0
  | .str s => s ≠ ""
  | _ => true

/-- Truthiness of a possibly-`undefined` value. -/
def jsTruthyO : Option Json → Bool
  | none => false
  | some j => jsTruthy j

/-- JS `x || d`: `x` when truthy, else the default. -/
def jsOr (v : Option Json) (dflt : Json) : Json :=
  match v with
  | some j => if jsTruthy j then j else dflt
  | none => dflt

/-- Truthiness of a possibly-absent header value (`null` and `""` are
falsy). -/
def headerTruthy : Option String → Bool
  | none => false
  | some s => s ≠ ""

/-- Decimal value of a digit prefix; `none` when there is no digit. -/
def digitsVal (cs : List Char) : Option Nat :=
  let ds := cs.takeWhile Char.isDigit
  if ds.isEmpty then none
  else some (ds.foldl (fun acc c => acc * 10 + (c.toNat - '0'.toNat)) 0)

/-- JS `parseInt` on a string: skip leading whitespace, optional sign,
longest digit prefix; `none` models `NaN`.  (Radix prefixes such as `0x`
are not modelled; the worker only parses its own decimal counters.) -/
def jsParseIntStr (s : String) : Option JsNum :=
  let t := s.data.dropWhile Char.isWhitespace
  match t with
  | '-' :: rest => (digitsVal rest).map (fun n => ⟨-(n : Int), 1⟩)
  | '+' :: rest => (digitsVal rest).map (fun n => ⟨(n : Int), 1⟩)
  | rest => (digitsVal rest).map (fun n => ⟨(n : Int), 1⟩)

/-- JS `parseInt` on a stored KV value.  The store only ever holds strings
written by the worker itself; `parseInt` on a non-string (which JS would
first coerce to a string) is modelled as `NaN`. -/
def jsParseInt : Json → Option JsNum
  | .str s => jsParseIntStr s
  | _ => none

/-- JS `>` with a possibly-`NaN` left operand (comparisons with `NaN` are
false). -/
def jsGt (a : Option JsNum) (b : JsNum) : Bool :=
  match a with
  | some q => q.gt b
  | none => false

/-- JS `+` where either operand may be `NaN`. -/
def jsAddO : Option JsNum → Option JsNum → Option JsNum
  | some a, some b => some (a.add b)
  | _, _ => none

/-- Numeric `toString` of a possibly-`NaN` count.  All reachable values
are integers; the fallback rendering for non-integers differs from JS but
is unreachable. -/
def jsNumToString (o : Option JsNum) : String :=
  match o with
  | none => "NaN"
  | some q => if q.d = 1 then toString q.n else toString q.n ++ "/" ++ toString q.d

/-- Value of `x || 0` as it enters a JS numeric addition; `none` models
`NaN`.  A truthy non-number operand (which JS would coerce, possibly to a
string concatenation) is modelled as `NaN`; the worker only adds numeric
token counts. -/
def jsNumOrZero (v : Option Json) : Option JsNum :=
  match v with
  | none => some ⟨0, 1⟩
  | some j =>
    if jsTruthy j then
      match j with
      | .num q => some q
      | _ => none
    else some ⟨0, 1⟩

/-- Value of an object field as it enters a JS numeric addition
(`undefined` gives `NaN`, `null` coerces to 0; other non-numbers are
modelled as `NaN`). -/
def jsFieldNum (j : Json) (k : String) : Option JsNum :=
  match j.getField k with
  | some (.num q) => some q
  | some .null => some ⟨0, 1⟩
  | _ => none

/-- Functional update of an object field (append when absent). -/
def jsSetField : Json → String → Json → Json
  | .objCons k v t, key, nv =>
    if k = key then .objCons k nv t else .objCons k v (jsSetField t key nv)
  | .objNil, key, nv => .objCons key nv .objNil
  | j, _, _ => j

/-- JSON number to be stored for a possibly-`NaN` result:
`JSON.stringify` turns `NaN` into `null`. -/
def jsNumStoreJson (o : Option JsNum) : Json :=
  match o with
  | none => .null
  | some q => .num q

/-- Substring test on character lists (used for JS `String.includes`). -/
def containsSub (pat : List Char) : List Char → Bool
  | [] => pat.isEmpty
  | c :: rest => pat.isPrefixOf (c :: rest) || containsSub pat rest

/-- JS `s.includes(pat)`. -/
def strIncludes (s pat : String) : Bool := containsSub pat.data s.data

/-- One KV entry: key, stored value, and the TTL (seconds) set by the last
`put`. -/
structure KVEntry where
  key : String
  val : Json
  ttl : Nat
deriving Repr, DecidableEq

/-- The shared KV store.  `getFails`/`putFails` list the keys on which the
corresponding operation throws (store unavailability). -/
structure KVStore where
  entries : List KVEntry
  getFails : List String
  putFails : List String
deriving Repr, DecidableEq

/-- First entry with the given key in an entry list. -/
def kvFindIn : List KVEntry → String → Option KVEntry
  | [], _ => none
  | e :: es, k => if e.key = k then some e else kvFindIn es k

/-- Entry stored under a key, if any. -/
def kvFind (kv : KVStore) (k : String) : Option KVEntry :=
  kvFindIn kv.entries k

/-- Stored value under a key, if any. -/
def kvLookup (kv : KVStore) (k : String) : Option Json :=
  (kvFind kv k).map (·.val)

/-- Replace the entry for a key (append when absent). -/
def kvReplace : List KVEntry → KVEntry → List KVEntry
  | [], e => [e]
  | x :: xs, e => if x.key = e.key then e :: xs else x :: kvReplace xs e

/-- `env.KV.get`: throws on an unavailable key, else the stored value or
`null`. -/
def kvGet (kv : KVStore) (k : String) : Except Unit (Option Json) :=
  if kv.getFails.contains k then .error () else .ok (kvLookup kv k)

/-- Pure effect of a successful `env.KV.put` with a TTL. -/
def kvPutStore (kv : KVStore) (k : String) (v : Json) (ttl : Nat) : KVStore :=
  { kv with entries := kvReplace kv.entries ⟨k, v, ttl⟩ }

/-- `env.KV.put`: throws on an unavailable key, else overwrites. -/
def kvPut (kv : KVStore) (k : String) (v : Json) (ttl : Nat) :
    Except Unit KVStore :=
  if kv.putFails.contains k then .error () else .ok (kvPutStore kv k v ttl)

/-- Worker environment bindings. -/
structure Env where
  clientApiKeySecret : String
  openRouterApiKeySecret : String

/-- Inbound request as the worker reads it: method, URL pathname, the two
headers it consults, and the parsed JSON body (`none` when
`request.json()` would throw). -/
structure WorkerRequest where
  method : String
  path : String
  apiKey : Option String
  clientIP : Option String
  body : Option Json
deriving Repr

/-- One message of the outbound chat-completion body. -/
structure ChatMessage where
  role : String
  content : Json
deriving Repr, DecidableEq

/-- Outbound body sent to the upstream chat-completions endpoint.  (The
outbound headers are constants built from `Env` and are not modelled.) -/
structure OpenRouterBody where
  model : String
  messages : List ChatMessage
  temperature : Json
  maxTokens : Nat
deriving Repr, DecidableEq

/-- Result of the upstream `fetch`: transport failure, or a response with
a status and a body (`none` when `response.json()` would throw). -/
inductive UpstreamResult where
  | networkError
  | resp (status : Nat) (body : Option Json)

/-- HTTP response produced by the worker (status and body; plain-text
bodies are `Json.str`). -/
structure HttpResponse where
  status : Nat
  body : Json
deriving Repr, DecidableEq

/-- Fixed system prompt of the checked-in worker (api-proxy.js line 69). -/
def workerSystemPrompt : String :=
  "Ты - AI-ассистент для расчета стоимости упаковки. Отвечай на русском языке. Всегда используй русский язык для общения."

/-- Model selection of the checked-in worker: by URL path
(api-proxy.js lines 54-62). -/
def modelOf (modelPath : String) : String :=
  if strIncludes modelPath "claude-3-5-sonnet" then "anthropic/claude-3-5-sonnet"
  else if strIncludes modelPath "claude-3-haiku" then "anthropic/claude-3-haiku"
  else "anthropic/claude-3-haiku"

/-- Accessor `requestBody.contents?.[0]?.parts?.[0]?.text`. -/
def bodyText (b : Json) : Option Json :=
  ((((b.getField "contents").bind (·.getIdx 0)).bind
      (·.getField "parts")).bind (·.getIdx 0)).bind (·.getField "text")

/-- Accessor `requestBody.generationConfig?.temperature`. -/
def bodyTemp (b : Json) : Option Json :=
  (b.getField "generationConfig").bind (·.getField "temperature")

/-- Outbound body built by the worker (api-proxy.js lines 64-78). -/
def openRouterBodyOf (requestBody : Json) (modelPath : String) : OpenRouterBody where
  model := modelOf modelPath
  messages :=
    [⟨"system", .str workerSystemPrompt⟩,
     ⟨"user", jsOr (bodyText requestBody) (.str "")⟩]
  temperature := jsOr (bodyTemp requestBody) (.num ⟨7, 10⟩)
  maxTokens := 4000

/-- Error message chosen for a non-OK upstream status
(api-proxy.js lines 98-105). -/
def upstreamErrorMessage (status : Nat) : String :=
  if status = 401 then "Ошибка авторизации OpenRouter. Проверьте API ключ и баланс аккаунта."
  else if status = 402 then "Недостаточно средств на OpenRouter. Пополните баланс аккаунта."
  else if status = 429 then "Превышен лимит запросов к OpenRouter. Попробуйте позже."
  else "Ошибка API"

/-- Error body `\x7b error: \x7b code, message, details \x7d \x7d`
returned for a non-OK upstream response. -/
def upstreamErrorBody (status : Nat) (errorData : Json) : Json :=
  Json.obj [("error", Json.obj
    [("code", Json.int status),
     ("message", .str (upstreamErrorMessage status)),
     ("details", errorData)])]

/-- Repackaging of the upstream response into the public (Gemini-style)
shape (api-proxy.js lines 125-137). -/
def buildGeminiResponse (responseData : Json) : Json :=
  Json.obj
    [("candidates", Json.arr [Json.obj
        [("content", Json.obj
          [("parts", Json.arr [Json.obj
            [("text",
              jsOr ((((responseData.getField "choices").bind (·.getIdx 0)).bind
                  (·.getField "message")).bind (·.getField "content"))
                (.str ""))]])])]]),
     ("usage", Json.obj
        [("promptTokenCount",
          jsOr ((responseData.getField "usage").bind (·.getField "prompt_tokens"))
            (Json.int 0)),
         ("candidatesTokenCount",
          jsOr ((responseData.getField "usage").bind (·.getField "completion_tokens"))
            (Json.int 0))])]

/-- Ledger update `usageData.totalTokens += total; usageData.requests += 1`
on the parsed stored value.  Property assignment on a non-object throws in
strict mode (`none`); JS would let an array accept expando properties that
`JSON.stringify` then drops — that unreachable case is also modelled as a
throw. -/
def jsUpdateLedger (usageData : Json) (totalTokens : Option JsNum) : Option Json :=
  match usageData with
  | .objCons _ _ _ | .objNil =>
    some (jsSetField
      (jsSetField usageData "totalTokens"
        (jsNumStoreJson (jsAddO (jsFieldNum usageData "totalTokens") totalTokens)))
      "requests"
      (jsNumStoreJson (jsAddO (jsFieldNum usageData "requests") (some ⟨1, 1⟩))))
  | _ => none

/-- Result of the worker's `try` block: response or thrown error, the
upstream calls issued, and the store state. -/
structure TryResult where
  result : Except Unit HttpResponse
  calls : List OpenRouterBody
  kv : KVStore

/-- Usage-recording tail of the `try` block (api-proxy.js lines 139-168):
read-modify-write of the monthly ledger, then the success response.  Any
throw here propagates to the request-level `catch`. -/
def recordUsage (month : String) (kv : KVStore) (responseData : Json)
    (geminiResponse : Json) (status : Nat) (calls : List OpenRouterBody) :
    TryResult :=
  let totalTokens := jsAddO
    (jsNumOrZero ((responseData.getField "usage").bind (·.getField "prompt_tokens")))
    (jsNumOrZero ((responseData.getField "usage").bind (·.getField "completion_tokens")))
  let usageKey := "usage:" ++ month
  match kvGet kv usageKey with
  | .error _ => ⟨.error (), calls, kv⟩
  | .ok existingUsage =>
    let usageData :=
      if jsTruthyO existingUsage then existingUsage.getD .null
      else Json.obj [("totalTokens", Json.int 0), ("requests", Json.int 0)]
    match jsUpdateLedger usageData totalTokens with
    | none => ⟨.error (), calls, kv⟩
    | some usageData1 =>
      match kvPut kv usageKey usageData1 2592000 with
      | .error _ => ⟨.error (), calls, kv⟩
      | .ok kv2 => ⟨.ok ⟨status, geminiResponse⟩, calls, kv2⟩

/-- The worker's `try` block (api-proxy.js lines 46-169): parse the body,
pick the model from the URL path, build and issue the upstream request,
translate the response, record usage. -/
def workerTry (upstream : OpenRouterBody → UpstreamResult) (month : String)
    (kv : KVStore) (req : WorkerRequest) : TryResult :=
  match req.body with
  | none => ⟨.error (), [], kv⟩
  | some requestBody =>
    let orBody := openRouterBodyOf requestBody req.path
    match upstream orBody with
    | .networkError => ⟨.error (), [orBody], kv⟩
    | .resp status body =>
      if status < 200 || 300 ≤ status then
        let errorData := body.getD (Json.obj [])
        ⟨.ok ⟨status, upstreamErrorBody status errorData⟩, [orBody], kv⟩
      else
        match body with
        | none => ⟨.error (), [orBody], kv⟩
        | some responseData =>
          let geminiResponse := buildGeminiResponse responseData
          if jsTruthyO (responseData.getField "usage") then
            recordUsage month kv responseData geminiResponse status [orBody]
          else ⟨.ok ⟨status, geminiResponse⟩, [orBody], kv⟩

/-- Full outcome of one worker invocation: the caller-visible result
(`Except.error ()` when an exception escapes `fetch`), the upstream calls
issued, and the final store state. -/
structure WorkerOutcome where
  result : Except Unit HttpResponse
  calls : List OpenRouterBody
  kv : KVStore

/-- Rate-limit key `rate_limit:(ip)`; a missing `CF-Connecting-IP` header
renders as the string `null` in the template literal. -/
def rateLimitKeyOf (req : WorkerRequest) : String :=
  "rate_limit:" ++ (req.clientIP.getD "null")

/-- The `requestCount` computation of api-proxy.js line 32 on the value
read from the store. -/
def requestCountOf (cur : Option Json) : Option JsNum :=
  if jsTruthyO cur then jsParseInt (cur.getD .null) else some ⟨0, 1⟩

/-- Failed authentication check of api-proxy.js line 20:
`!clientApiKey || clientApiKey !== env.CLIENT_API_KEY`. -/
def workerAuthFailed (env : Env) (req : WorkerRequest) : Bool :=
  !headerTruthy req.apiKey || req.apiKey != some env.clientApiKeySecret

/-- The worker's `fetch` handler (api-proxy.js, OpenRouter variant).
`month` is `new Date().toISOString().slice(0, 7)` (the clock is an input).
Note that the rate-limiting store accesses (lines 31 and 42) sit outside
the `try` block, so a throw there escapes the handler. -/
def workerFetch (env : Env) (upstream : OpenRouterBody → UpstreamResult)
    (month : String) (kv : KVStore) (req : WorkerRequest) : WorkerOutcome :=
  if req.method == "OPTIONS" then ⟨.ok ⟨200, .null⟩, [], kv⟩
  else if workerAuthFailed env req then
    ⟨.ok ⟨401, .str "Unauthorized"⟩, [], kv⟩
  else
    let rateLimitKey := rateLimitKeyOf req
    match kvGet kv rateLimitKey with
    | .error _ => ⟨.error (), [], kv⟩
    | .ok currentRequests =>
      let requestCount := requestCountOf currentRequests
      if jsGt requestCount ⟨100, 1⟩ then
        ⟨.ok ⟨429, .str "Rate limit exceeded"⟩, [], kv⟩
      else
        match kvPut kv rateLimitKey
            (.str (jsNumToString (jsAddO requestCount (some ⟨1, 1⟩)))) 60 with
        | .error _ => ⟨.error (), [], kv⟩
        | .ok kv1 =>
          let t := workerTry upstream month kv1 req
          match t.result with
          | .ok resp => ⟨.ok resp, t.calls, t.kv⟩
          | .error _ => ⟨.ok ⟨500, .str "Internal Server Error"⟩, t.calls, t.kv⟩

/-- Accessor `candidates[0].content.parts[0].text` of a public response
body. -/
def candidateTextOf (resp : Json) : Option Json :=
  (((((resp.getField "candidates").bind (·.getIdx 0)).bind
      (·.getField "content")).bind (·.getField "parts")).bind
      (·.getIdx 0)).bind (·.getField "text")

/-- Accessor `usage.promptTokenCount` of a public response body. -/
def promptTokensOf (resp : Json) : Option Json :=
  (resp.getField "usage").bind (·.getField "promptTokenCount")

/-- Accessor `usage.candidatesTokenCount` of a public response body. -/
def candTokensOf (resp : Json) : Option Json :=
  (resp.getField "usage").bind (·.getField "candidatesTokenCount")

/-- Accessor `choices[0].message.content` of an upstream response body. -/
def upChoiceContent (up : Json) : Option Json :=
  (((up.getField "choices").bind (·.getIdx 0)).bind
      (·.getField "message")).bind (·.getField "content")


/-- Result of one `validators.validateString` check
(openRouterService.ts lines 91-105): validity and the error message.
String length is the character count (the worker's texts are BMP, where
this agrees with JS UTF-16 length). -/
structure VResult where
  valid : Bool
  error : Option String
deriving Repr, DecidableEq

/-- Length of `s.trim()` (whitespace stripped from both ends), computed
structurally on the character list. -/
def strTrimLength (s : String) : Nat :=
  ((s.data.dropWhile Char.isWhitespace).reverse.dropWhile Char.isWhitespace).length

/-- `validators.validateString(value, fieldName, maxLength)` of
openRouterService.ts: rejects `null`/`undefined`, non-strings, blank
strings, and over-long strings. -/
def validateString (value : Option Json) (fieldName : String) (maxLength : Nat) :
    VResult :=
  match value with
  | none => ⟨false, some (fieldName ++ " не может быть null или undefined")⟩
  | some .null => ⟨false, some (fieldName ++ " не может быть null или undefined")⟩
  | some (.str s) =>
    if strTrimLength s = 0 then
      ⟨false, some (fieldName ++ " не может быть пустой строкой")⟩
    else if s.length > maxLength then
      ⟨false, some (fieldName ++ " слишком длинный (максимум " ++ toString maxLength ++ " символов)")⟩
    else ⟨true, none⟩
  | some _ => ⟨false, some (fieldName ++ " должен быть строкой")⟩

/-- JS `typeof x === 'object'` for a truthy `x` (arrays included). -/
def jsIsObjectLike : Json → Bool
  | .arrNil | .arrCons _ _ | .objNil | .objCons _ _ _ | .null => true
  | _ => false

/-- Per-part loop of `validators.validateContents`
(openRouterService.ts lines 402-416). -/
def validatePartsAt (i : Nat) : Nat → List Json → List String
  | _, [] => []
  | j, part :: rest =>
    (if !jsTruthy part || !jsIsObjectLike part then
      ["contents[" ++ toString i ++ "].parts[" ++ toString j ++ "] должен быть объектом"]
     else
      match part.getField "text" with
      | none => []
      | some tv =>
        let r := validateString (some tv)
          ("contents[" ++ toString i ++ "].parts[" ++ toString j ++ "].text") 100000
        if r.valid then [] else [r.error.getD ""]) ++ validatePartsAt i (j + 1) rest

/-- Per-content loop of `validators.validateContents`
(openRouterService.ts lines 378-417). -/
def validateContentsAt : Nat → List Json → List String
  | _, [] => []
  | i, content :: rest =>
    (if !jsTruthy content || !jsIsObjectLike content then
      ["contents[" ++ toString i ++ "] должен быть объектом"]
     else
      match (content.getField "parts").bind Json.asArray with
      | none => ["contents[" ++ toString i ++ "].parts должен быть массивом"]
      | some ps =>
        if ps.length = 0 then
          ["contents[" ++ toString i ++ "].parts не может быть пустым"]
        else if ps.length > 50 then
          ["contents[" ++ toString i ++ "].parts слишком длинный (максимум 50 элементов)"]
        else validatePartsAt i 0 ps) ++ validateContentsAt (i + 1) rest

/-- `validators.validateContents(contents)` of
openRouterService.ts lines 354-420: the structural bounds on the
`contents` array (non-empty, at most 10 elements, each with a non-empty
`parts` array of at most 50 elements whose `text`, when present, is a
non-blank string of at most 100000 characters). -/
def validateContents (contents : Option Json) : Bool × List String :=
  if !jsTruthyO contents then
    (false, ["contents не может быть null или undefined"])
  else
    match (contents.getD .null).asArray with
    | none => (false, ["contents должен быть массивом"])
    | some xs =>
      if xs.length = 0 then (false, ["contents не может быть пустым массивом"])
      else if xs.length > 10 then
        (false, ["contents слишком длинный (максимум 10 элементов)"])
      else
        let errors := validateContentsAt 0 xs
        (errors.isEmpty, errors)

/-- Modelled from the spec: the deployed worker's task classifier is
missing from `src/workers/api-proxy.js` (the checked-in variant routes by
URL path); the repository's model-routing notes document the marker lists
used here.  Extraction-task test on the user message. -/
def isExtractionTask (userMessage : String) : Bool :=
  strIncludes userMessage "Извлеки параметры" ||
  strIncludes userMessage "JSON-массив" ||
  strIncludes userMessage "структура:"

/-- Modelled from the spec: price-correction-task test (marker phrases
documented in the repository's model-routing notes). -/
def isPriceCorrectionTask (userMessage : String) : Bool :=
  strIncludes userMessage "коррекции цены" ||
  strIncludes userMessage "уточнением" ||
  strIncludes userMessage "correctedPricePerUnit"

/-- Modelled from the spec: cost-estimation-task test (marker phrases
documented in the repository's model-routing notes). -/
def isCostEstimationTask (userMessage : String) : Bool :=
  strIncludes userMessage "рассчитай стоимость" ||
  strIncludes userMessage "примерная стоимость" ||
  strIncludes userMessage "база знаний" ||
  strIncludes userMessage "правила ценообразования"

/-- Task classes of the model router (spec glossary). -/
inductive TaskClass where
  | extraction
  | priceCorrection
  | costEstimation
  | general
deriving Repr, DecidableEq

/-- Modelled from the spec: first-match-wins classification
(extraction, then price correction, then cost estimation, else default). -/
def classifyTask (userMessage : String) : TaskClass :=
  if isExtractionTask userMessage then .extraction
  else if isPriceCorrectionTask userMessage then .priceCorrection
  else if isCostEstimationTask userMessage then .costEstimation
  else .general

/-- Modelled from the spec: extraction and price correction use the
cheaper model, cost estimation the more capable one, default the cheaper
one. -/
def selectModel : TaskClass → String
  | .costEstimation => "anthropic/claude-3-5-sonnet"
  | _ => "anthropic/claude-3-haiku"

/-- Modelled from the spec: default system instruction (plain-language). -/
def defaultSystemPrompt : String :=
  "Ты - AI-ассистент для расчета стоимости упаковки. Отвечай на русском языке."

/-- Modelled from the spec: JSON-only system instruction for the
extraction class. -/
def extractionSystemPrompt : String :=
  "Ты - AI-ассистент для извлечения параметров заказа упаковки. Отвечай на русском языке. Всегда возвращай данные в строгом JSON формате."

/-- Modelled from the spec: JSON-only system instruction for the
price-correction class. -/
def priceCorrectionSystemPrompt : String :=
  "Ты - AI-ассистент для анализа коррекций цены. Отвечай на русском языке. Всегда возвращай данные в строгом JSON формате."

/-- Modelled from the spec: domain-specific costing instruction for the
cost-estimation class. -/
def costEstimationSystemPrompt : String :=
  "Ты - AI-ассистент для расчета стоимости упаковки в Китае. Отвечай на русском языке. Используй базу знаний и правила ценообразования для точных расчетов."

/-- Modelled from the spec: each task class gets its fixed system
instruction. -/
def selectSystemPrompt : TaskClass → String
  | .extraction => extractionSystemPrompt
  | .priceCorrection => priceCorrectionSystemPrompt
  | .costEstimation => costEstimationSystemPrompt
  | .general => defaultSystemPrompt

/-- User message the router inspects: `contents[0].parts[0].text || ''`;
a non-string message makes the JS classification throw and fall back to
the default class, so only a string text yields a real classification. -/
def routeMessageOf (b : Json) : String :=
  match bodyText b with
  | some (.str s) => s
  | _ => ""

/-- Task class the spec pipeline assigns to a request body. -/
def routeOf (b : Json) : TaskClass :=
  match bodyText b with
  | some (.str s) => classifyTask s
  | _ => .general

mutual

/-- Serialization of a JSON value (string escaping is not modelled; used
only for the spec cache's size bound). -/
def Json.render : Json → String
  | .null => "null"
  | .bool b => if b then "true" else "false"
  | .num q => jsNumToString (some q)
  | .str s => "\"" ++ s ++ "\""
  | .arrNil => "[]"
  | .arrCons h t => "[" ++ h.render ++ t.renderArrTail
  | .objNil => "\x7b\x7d"
  | .objCons k v t => "\x7b\"" ++ k ++ "\":" ++ v.render ++ t.renderObjTail

/-- Tail of an array rendering. -/
def Json.renderArrTail : Json → String
  | .arrCons h t => "," ++ h.render ++ t.renderArrTail
  | _ => "]"

/-- Tail of an object rendering. -/
def Json.renderObjTail : Json → String
  | .objCons k v t => ",\"" ++ k ++ "\":" ++ v.render ++ t.renderObjTail
  | _ => "\x7d"

end

/-- JS `>` between an optional JSON value and a number: true only when the
value is a number exceeding the bound (used by the cache eligibility
checks). -/
def jsGtNum (v : Option Json) (b : JsNum) : Bool :=
  match v with
  | some (.num q) => q.gt b
  | _ => false

/-- Modelled from the spec: per-class cache TTL (extraction 7200s,
price correction 1800s; other classes are never cached). -/
def taskTTL : TaskClass → Nat
  | .extraction => 7200
  | .priceCorrection => 1800
  | _ => 0

/-- Modelled from the spec: cache eligibility — not cacheable when
`temperature > 0.5`, when `max_tokens > 2000`, when the serialized content
exceeds 10000 characters, or when the class is neither extraction nor
price correction. -/
def isCacheable (cls : TaskClass) (b : Json) : Bool :=
  !jsGtNum (bodyTemp b) ⟨1, 2⟩ &&
  !jsGtNum ((b.getField "generationConfig").bind (·.getField "max_tokens")) ⟨2000, 1⟩ &&
  ((b.getField "contents").getD .null).render.length ≤ 10000 &&
  (cls == .extraction || cls == .priceCorrection)

/-- Modelled from the spec: the cache fingerprint is a pure, injective
function of the ordered tuple (contents, generation config, system
instruction, selected model); the hash is modelled as the identity on that
tuple. -/
def cacheKeyOf (b : Json) (model : String) : Json :=
  Json.obj
    [("contents", (b.getField "contents").getD .null),
     ("generationConfig", (b.getField "generationConfig").getD .null),
     ("systemInstruction", (b.getField "systemInstruction").getD .null),
     ("model", .str model)]

/-- Cache entry: fingerprint, stored payload, absolute expiry time. -/
structure CacheEntry where
  key : Json
  payload : Json
  expiresAt : Nat
deriving Repr, DecidableEq

/-- First cache entry with the given fingerprint. -/
def cacheFind : List CacheEntry → Json → Option CacheEntry
  | [], _ => none
  | e :: es, k => if e.key = k then some e else cacheFind es k

/-- Remove the entries with the given fingerprint. -/
def cacheErase : List CacheEntry → Json → List CacheEntry
  | [], _ => []
  | e :: es, k => if e.key = k then cacheErase es k else e :: cacheErase es k

/-- Modelled from the spec: cache read path — fetch by key; absent is a
miss; a present entry past its expiry is deleted (lazy expiry) and is a
miss; otherwise hit. -/
def cacheRead (cache : List CacheEntry) (k : Json) (now : Nat) :
    Option Json × List CacheEntry :=
  match cacheFind cache k with
  | none => (none, cache)
  | some e =>
    if e.expiresAt ≤ now then (none, cacheErase cache k)
    else (some e.payload, cache)

/-- Modelled from the spec: cache write path — store the payload under the
fingerprint with the class TTL. -/
def cacheWrite (cache : List CacheEntry) (k : Json) (payload : Json)
    (expiresAt : Nat) : List CacheEntry :=
  ⟨k, payload, expiresAt⟩ :: cacheErase cache k

/-- State the spec pipeline threads: the shared KV store (rate limiting
and usage ledger) and the response cache. -/
structure SpecState where
  kv : KVStore
  cache : List CacheEntry

/-- Response of the spec pipeline, including the `X-Cache` header. -/
structure SpecResponse where
  status : Nat
  body : Json
  xCache : Option String
deriving Repr, DecidableEq

/-- Outcome of one spec-pipeline invocation. -/
structure SpecOutcome where
  response : SpecResponse
  calls : List OpenRouterBody
  state : SpecState

/-- Structured error body of the spec pipeline. -/
def mkError (code : Nat) (message : String) : Json :=
  Json.obj [("error", Json.obj
    [("code", Json.int code), ("message", .str message), ("details", Json.obj [])])]

/-- Modelled from the spec: the health endpoint missing from
`src/workers/api-proxy.js` — `GET /health` answers 200 with
`\x7b status, timestamp, service, version \x7d` and `status` equal to
`"healthy"`, before any store or upstream access. -/
def healthResponse (timestamp : String) : SpecResponse :=
  ⟨200, Json.obj
    [("status", .str "healthy"),
     ("timestamp", .str timestamp),
     ("service", .str "packaging-calculator-api"),
     ("version", .str "1.0.0")], none⟩

/-- Modelled from the spec: fail-open rate limiter of the spec pipeline —
same fixed-window algorithm as the checked-in worker, but store errors log
and allow the request.  Returns whether the request is blocked and the
store afterwards. -/
def specRateLimit (kv : KVStore) (rateLimitKey : String) : Bool × KVStore :=
  match kvGet kv rateLimitKey with
  | .error _ => (false, kv)
  | .ok currentRequests =>
    let requestCount := requestCountOf currentRequests
    if jsGt requestCount ⟨100, 1⟩ then (true, kv)
    else
      match kvPut kv rateLimitKey
          (.str (jsNumToString (jsAddO requestCount (some ⟨1, 1⟩)))) 60 with
      | .error _ => (false, kv)
      | .ok kv1 => (false, kv1)

/-- Modelled from the spec: fail-open usage recorder of the spec pipeline —
the ledger read-modify-write of the checked-in worker with every error
swallowed. -/
def specRecordUsage (month : String) (kv : KVStore) (responseData : Json) :
    KVStore :=
  if jsTruthyO (responseData.getField "usage") then
    let totalTokens := jsAddO
      (jsNumOrZero ((responseData.getField "usage").bind (·.getField "prompt_tokens")))
      (jsNumOrZero ((responseData.getField "usage").bind (·.getField "completion_tokens")))
    let usageKey := "usage:" ++ month
    match kvGet kv usageKey with
    | .error _ => kv
    | .ok existingUsage =>
      let usageData :=
        if jsTruthyO existingUsage then existingUsage.getD .null
        else Json.obj [("totalTokens", Json.int 0), ("requests", Json.int 0)]
      match jsUpdateLedger usageData totalTokens with
      | none => kv
      | some usageData1 =>
        match kvPut kv usageKey usageData1 2592000 with
        | .error _ => kv
        | .ok kv2 => kv2
  else kv

/-- Modelled from the spec: upstream stage of the spec pipeline — build
the routed chat-completion body, call the provider, translate failures per
the spec's taxonomy, repackage a success, record usage (fail-open), and
write an eligible response to the cache. -/
def specUpstreamStage (upstream : OpenRouterBody → UpstreamResult)
    (now : Nat) (month : String) (st : SpecState) (b : Json)
    (cls : TaskClass) (eligible : Bool) (key : Json) : SpecOutcome :=
  let orBody : OpenRouterBody :=
    ⟨selectModel cls,
     [⟨"system", .str (selectSystemPrompt cls)⟩,
      ⟨"user", jsOr (bodyText b) (.str "")⟩],
     jsOr (bodyTemp b) (.num ⟨7, 10⟩), 4000⟩
  match upstream orBody with
  | .networkError =>
    ⟨⟨503, mkError 503 "Сервис временно недоступен", none⟩, [orBody], st⟩
  | .resp status body =>
    if status < 200 || 300 ≤ status then
      ⟨⟨status, mkError status (upstreamErrorMessage status), none⟩, [orBody], st⟩
    else
      match body with
      | none => ⟨⟨500, mkError 500 "Ошибка обработки ответа", none⟩, [orBody], st⟩
      | some responseData =>
        let payload := buildGeminiResponse responseData
        let kv2 := specRecordUsage month st.kv responseData
        let cache2 :=
          if eligible then cacheWrite st.cache key payload (now + taskTTL cls)
          else st.cache
        ⟨⟨200, payload, some "MISS"⟩, [orBody], ⟨kv2, cache2⟩⟩

/-- Modelled from the spec: the full pipeline of the deployed proxy —
CORS preflight, health endpoint, validation (400), authentication (401),
fail-open fixed-window rate limiting (429), content-based model routing,
cache lookup (hit short-circuits with `X-Cache: HIT`), upstream call,
usage recording, cache store. -/
def specProxyFetch (env : Env) (upstream : OpenRouterBody → UpstreamResult)
    (now : Nat) (timestamp month : String) (st : SpecState)
    (req : WorkerRequest) : SpecOutcome :=
  if req.method == "OPTIONS" then ⟨⟨200, .null, none⟩, [], st⟩
  else if req.method == "GET" && req.path == "/health" then
    ⟨healthResponse timestamp, [], st⟩
  else
    match req.body with
    | none => ⟨⟨400, mkError 400 "Неверный формат JSON в запросе", none⟩, [], st⟩
    | some b =>
      let cv := validateContents (b.getField "contents")
      if !cv.1 then
        ⟨⟨400, mkError 400 (String.intercalate ", " cv.2), none⟩, [], st⟩
      else if workerAuthFailed env req then
        ⟨⟨401, mkError 401 "Unauthorized", none⟩, [], st⟩
      else
        let rl := specRateLimit st.kv (rateLimitKeyOf req)
        if rl.1 then
          ⟨⟨429, mkError 429 "Rate limit exceeded", none⟩, [], ⟨rl.2, st.cache⟩⟩
        else
          let st1 : SpecState := ⟨rl.2, st.cache⟩
          let cls := routeOf b
          let eligible := isCacheable cls b
          let key := cacheKeyOf b (selectModel cls)
          if eligible then
            match cacheRead st1.cache key now with
            | (some payload, cache1) =>
              ⟨⟨200, payload, some "HIT"⟩, [], ⟨st1.kv, cache1⟩⟩
            | (none, cache1) =>
              specUpstreamStage upstream now month ⟨st1.kv, cache1⟩ b cls eligible key
          else specUpstreamStage upstream now month st1 b cls eligible key

/-- Healthy empty store. -/
def emptyKV : KVStore := ⟨[], [], []⟩

/-- Demo environment for concrete evaluations. -/
def demoEnv : Env := ⟨"s3cret-client-key", "router-key"⟩

/-- Demo request body with one content block and one text part. -/
def demoBody : Json :=
  Json.obj [("contents", Json.arr [Json.obj
    [("parts", Json.arr [Json.obj [("text", .str "Привет, посчитай пакет")]])]])]

/-- Demo authenticated request. -/
def demoReq : WorkerRequest :=
  ⟨"POST", "/v1beta/models/gemini:generateContent", some "s3cret-client-key",
   some "1.2.3.4", some demoBody⟩

/-- Demo upstream success body with a usage block. -/
def demoUpstreamJson : Json :=
  Json.obj
    [("choices", Json.arr [Json.obj
      [("message", Json.obj [("content", .str "Ответ ассистента")])]]),
     ("usage", Json.obj
      [("prompt_tokens", Json.int 50), ("completion_tokens", Json.int 10)])]

/-- Demo upstream returning 200 with `demoUpstreamJson` for every call. -/
def demoUpstream : OpenRouterBody → UpstreamResult :=
  fun _ => .resp 200 (some demoUpstreamJson)

/-- Store whose usage-ledger key (month 2025-01) is unavailable for reads. -/
def kvUsageGetFails : KVStore := ⟨[], ["usage:2025-01"], []⟩

/-- Store whose rate-limit key for the demo caller IP is unavailable for
reads. -/
def kvRateGetFails : KVStore := ⟨[], ["rate_limit:1.2.3.4"], []⟩

/-- Demo request whose caller supplies `generationConfig.temperature` 0. -/
def reqTempZero : WorkerRequest :=
  ⟨"POST", "/v1beta/models/gemini:generateContent", some "s3cret-client-key",
   some "1.2.3.4", some (Json.obj
    [("contents", Json.arr [Json.obj
      [("parts", Json.arr [Json.obj [("text", .str "Привет, посчитай пакет")]])]]),
     ("generationConfig", Json.obj [("temperature", Json.int 0)])])⟩

/-- Cache-eligible extraction request body (marker phrase, temperature
0.1) for the cache demonstrations. -/
def extractionBody : Json :=
  Json.obj
    [("contents", Json.arr [Json.obj
      [("parts", Json.arr [Json.obj
        [("text", .str "Извлеки параметры заказа упаковки в JSON-массив. Текст: пакет 250гр")]])]]),
     ("generationConfig", Json.obj [("temperature", .num ⟨1, 10⟩)])]

/-- Authenticated request carrying `extractionBody`. -/
def extractionReq : WorkerRequest :=
  ⟨"POST", "/v1beta/models/gemini", some "s3cret-client-key",
   some "1.2.3.4", some extractionBody⟩

/-- Outbound body the spec pipeline sends upstream for a request body:
routed model, routed system instruction, the flattened user message, the
caller's or default temperature, and the fixed token ceiling. -/
def specBodyOf (b : Json) : OpenRouterBody :=
  ⟨selectModel (routeOf b),
   [⟨"system", .str (selectSystemPrompt (routeOf b))⟩,
    ⟨"user", jsOr (bodyText b) (.str "")⟩],
   jsOr (bodyTemp b) (.num ⟨7, 10⟩), 4000⟩

theorem isPrefixOf_nil_left (x : List Char) : ([] : List Char).isPrefixOf x = true := by
  cases x <;> rfl

theorem isPrefixOf_append_self (l r : List Char) : l.isPrefixOf (l ++ r) = true := by
  induction l with
  | nil => exact isPrefixOf_nil_left r
  | cons c cs ih => simp only [List.cons_append, List.isPrefixOf_cons₂_self, ih]

theorem containsSub_append (pre m post : List Char) :
    containsSub m (pre ++ m ++ post) = true := by
  induction pre with
  | nil =>
    cases m with
    | nil =>
      cases post with
      | nil => rfl
      | cons c r => simp [containsSub, isPrefixOf_nil_left]
    | cons c cs =>
      simp only [List.nil_append, List.cons_append, containsSub, List.append_eq]
      have h := isPrefixOf_append_self (c :: cs) post
      simp only [List.cons_append, List.append_eq] at h
      rw [h]
      simp
  | cons c cs ih =>
    simp only [List.cons_append, containsSub, List.append_eq, ih, Bool.or_true]

theorem strIncludes_append (pre mid post : String) :
    strIncludes (pre ++ mid ++ post) mid = true := by
  unfold strIncludes
  rw [String.data_append, String.data_append]
  exact containsSub_append _ _ _

theorem rate_key_ne_usage_key (ip m : String) :
    "rate_limit:" ++ ip ≠ "usage:" ++ m := by
  intro h
  have h2 : ("rate_limit:" ++ ip).data = ("usage:" ++ m).data := congrArg String.data h
  rw [String.data_append, String.data_append] at h2
  have h3 : 'r' :: ("ate_limit:".data ++ ip.data) = 'u' :: ("sage:".data ++ m.data) := by
    rw [← List.cons_append, ← List.cons_append]
    exact h2
  injection h3 with h4 _
  exact absurd h4 (by decide)

theorem kvReplace_find_self (es : List KVEntry) (e : KVEntry) :
    kvFindIn (kvReplace es e) e.key = some e := by
  induction es with
  | nil => simp [kvReplace, kvFindIn]
  | cons x xs ih =>
    unfold kvReplace
    by_cases hx : x.key = e.key
    · simp [hx, kvFindIn]
    · rw [if_neg hx]
      unfold kvFindIn
      rw [if_neg hx]
      exact ih

theorem kvReplace_find_ne (es : List KVEntry) (e : KVEntry) (k : String)
    (h : e.key ≠ k) :
    kvFindIn (kvReplace es e) k = kvFindIn es k := by
  induction es with
  | nil => simp [kvReplace, kvFindIn, h]
  | cons x xs ih =>
    unfold kvReplace
    by_cases hx : x.key = e.key
    · rw [if_pos hx]
      unfold kvFindIn
      rw [if_neg h, if_neg (fun hk => h (hx.symm.trans hk))]
    · rw [if_neg hx]
      unfold kvFindIn
      by_cases hxk : x.key = k
      · rw [if_pos hxk, if_pos hxk]
      · rw [if_neg hxk, if_neg hxk]
        exact ih

theorem kvFind_putStore_self (kv : KVStore) (k : String) (v : Json) (ttl : Nat) :
    kvFind (kvPutStore kv k v ttl) k = some ⟨k, v, ttl⟩ :=
  kvReplace_find_self kv.entries ⟨k, v, ttl⟩

theorem kvFind_putStore_ne (kv : KVStore) (k k' : String) (v : Json) (ttl : Nat)
    (h : k ≠ k') :
    kvFind (kvPutStore kv k v ttl) k' = kvFind kv k' :=
  kvReplace_find_ne kv.entries ⟨k, v, ttl⟩ k' h

theorem jsOr_str_self (s : String) : jsOr (some (.str s)) (.str "") = .str s := by
  by_cases h : s = "" <;> simp [jsOr, jsTruthy, h]

theorem jsOr_int_self (p : Int) : jsOr (some (Json.int p)) (Json.int 0) = Json.int p := by
  by_cases h : p = 0 <;> simp [jsOr, jsTruthy, Json.int, h]

theorem recordUsage_kv_cases (month : String) (kv : KVStore) (rd g : Json)
    (status : Nat) (calls : List OpenRouterBody) :
    (recordUsage month kv rd g status calls).kv = kv ∨
    ∃ v, (recordUsage month kv rd g status calls).kv =
      kvPutStore kv ("usage:" ++ month) v 2592000 := by
  simp only [recordUsage]
  split
  · left; rfl
  · split
    · left; rfl
    · rename_i usageData1 heq
      split
      · left; rfl
      · rename_i kv2 hok
        right
        refine ⟨usageData1, ?_⟩
        simp only [kvPut] at hok
        split at hok
        · exact absurd hok (by simp)
        · injection hok with h2
          exact h2.symm

theorem recordUsage_calls (month : String) (kv : KVStore) (rd g : Json)
    (status : Nat) (calls : List OpenRouterBody) :
    (recordUsage month kv rd g status calls).calls = calls := by
  simp only [recordUsage]
  split
  · rfl
  · split
    · rfl
    · split <;> rfl

theorem workerTry_kv_cases (up : OpenRouterBody → UpstreamResult) (month : String)
    (kv : KVStore) (req : WorkerRequest) :
    (workerTry up month kv req).kv = kv ∨
    ∃ v, (workerTry up month kv req).kv =
      kvPutStore kv ("usage:" ++ month) v 2592000 := by
  simp only [workerTry]
  split
  · left; rfl
  · split
    · left; rfl
    · split
      · left; rfl
      · split
        · left; rfl
        · split
          · exact recordUsage_kv_cases _ _ _ _ _ _
          · left; rfl

theorem workerTry_calls (up : OpenRouterBody → UpstreamResult) (month : String)
    (kv : KVStore) (req : WorkerRequest) (b : Json) (hb : req.body = some b) :
    (workerTry up month kv req).calls = [openRouterBodyOf b req.path] := by
  cases hup : up (openRouterBodyOf b req.path) with
  | networkError => simp [workerTry, hb, hup]
  | resp status body =>
    simp only [workerTry, hb, hup]
    split
    · rfl
    · split
      · rfl
      · split
        · exact recordUsage_calls _ _ _ _ _ _
        · rfl

/-- C1: for every non-OPTIONS inbound request whose X-API-Key header is
missing or not byte-for-byte equal to the configured client secret, the
worker returns a 401 response, makes no upstream call, and leaves the
store untouched. -/
theorem c1_auth_unauthorized (env : Env) (up : OpenRouterBody → UpstreamResult)
    (month : String) (kv : KVStore) (req : WorkerRequest)
    (hm : (req.method == "OPTIONS") = false)
    (hk : req.apiKey = none ∨ ∃ k, req.apiKey = some k ∧ k ≠ env.clientApiKeySecret) :
    (workerFetch env up month kv req).result = .ok ⟨401, .str "Unauthorized"⟩ ∧
    (workerFetch env up month kv req).calls = [] ∧
    (workerFetch env up month kv req).kv = kv := by
  have hauth : workerAuthFailed env req = true := by
    rcases hk with h | ⟨k, hk1, hk2⟩
    · simp [workerAuthFailed, h, headerTruthy]
    · simp [workerAuthFailed, hk1, headerTruthy, bne_iff_ne, hk2]
  simp [workerFetch, hm, hauth]

/-- Witness for C1 at a concrete request carrying a wrong key. -/
theorem c1_witness :
    (workerFetch demoEnv demoUpstream "2025-01" emptyKV
      { demoReq with apiKey := some "wrong-key" }).result =
        .ok ⟨401, .str "Unauthorized"⟩ ∧
    (workerFetch demoEnv demoUpstream "2025-01" emptyKV
      { demoReq with apiKey := some "wrong-key" }).calls = [] ∧
    (workerFetch demoEnv demoUpstream "2025-01" emptyKV
      { demoReq with apiKey := some "wrong-key" }).kv = emptyKV :=
  c1_auth_unauthorized demoEnv demoUpstream "2025-01" emptyKV
    { demoReq with apiKey := some "wrong-key" } rfl
    (Or.inr ⟨"wrong-key", rfl, by decide⟩)

/-- C3 (divergence witness): the checked-in worker does not fail open.
With a healthy store the demo request succeeds with the translated
payload; the same request answers 500 when the usage-ledger read throws
(the request-level catch replaces the success), and the exception escapes
the handler when the rate-limit read throws (no local catch exists). -/
theorem c3_fail_open_violated :
    (workerFetch demoEnv demoUpstream "2025-01" emptyKV demoReq).result =
      .ok ⟨200, buildGeminiResponse demoUpstreamJson⟩ ∧
    (workerFetch demoEnv demoUpstream "2025-01" kvUsageGetFails demoReq).result =
      .ok ⟨500, .str "Internal Server Error"⟩ ∧
    (workerFetch demoEnv demoUpstream "2025-01" kvRateGetFails demoReq).result =
      .error () :=
  ⟨rfl, rfl, rfl⟩

/-- C5: any message containing the fixed extraction marker phrase, for any
surrounding text, is classified as an extraction task, which the router
maps to the cheaper model and the JSON-only system instruction. -/
theorem c5_extraction_routing (pre post : String) (b : Json)
    (ht : bodyText b = some (.str (pre ++ "Извлеки параметры" ++ post))) :
    routeOf b = .extraction ∧
    selectModel (routeOf b) = "anthropic/claude-3-haiku" ∧
    selectSystemPrompt (routeOf b) = extractionSystemPrompt := by
  have hext : isExtractionTask (pre ++ "Извлеки параметры" ++ post) = true := by
    unfold isExtractionTask
    rw [strIncludes_append]
    simp
  have hr : routeOf b = .extraction := by
    unfold routeOf
    rw [ht]
    show classifyTask (pre ++ "Извлеки параметры" ++ post) = .extraction
    simp [classifyTask, hext]
  exact ⟨hr, by rw [hr]; rfl, by rw [hr]; rfl⟩

/-- Witness for C5 at the concrete extraction request body. -/
theorem c5_witness :
    routeOf extractionBody = .extraction ∧
    selectModel (routeOf extractionBody) = "anthropic/claude-3-haiku" ∧
    selectSystemPrompt (routeOf extractionBody) = extractionSystemPrompt :=
  c5_extraction_routing "" " заказа упаковки в JSON-массив. Текст: пакет 250гр"
    extractionBody rfl

/-- C9: `GET /health` answers 200 with a body whose `status` field is
`"healthy"`, with no upstream call and no state change, for every store
and upstream (in particular unavailable ones). -/
theorem c9_health (env : Env) (up : OpenRouterBody → UpstreamResult)
    (now : Nat) (timestamp month : String) (st : SpecState) (req : WorkerRequest)
    (hm : req.method = "GET") (hp : req.path = "/health") :
    (specProxyFetch env up now timestamp month st req).response.status = 200 ∧
    (specProxyFetch env up now timestamp month st req).response.body.getField "status"
      = some (.str "healthy") ∧
    (specProxyFetch env up now timestamp month st req).calls = [] ∧
    (specProxyFetch env up now timestamp month st req).state = st := by
  obtain ⟨m, p, ak, ip, b⟩ := req
  have hm2 : m = "GET" := hm
  have hp2 : p = "/health" := hp
  subst hm2 hp2
  exact ⟨rfl, rfl, rfl, rfl⟩

/-- Witness for C9 at a concrete health request over a store whose keys
all fail. -/
theorem c9_witness :
    (specProxyFetch demoEnv demoUpstream 0 "2025-01-01T00:00:00Z" "2025-01"
      ⟨kvRateGetFails, []⟩ ⟨"GET", "/health", none, none, none⟩).response.status = 200 ∧
    (specProxyFetch demoEnv demoUpstream 0 "2025-01-01T00:00:00Z" "2025-01"
      ⟨kvRateGetFails, []⟩
      ⟨"GET", "/health", none, none, none⟩).response.body.getField "status"
      = some (.str "healthy") ∧
    (specProxyFetch demoEnv demoUpstream 0 "2025-01-01T00:00:00Z" "2025-01"
      ⟨kvRateGetFails, []⟩ ⟨"GET", "/health", none, none, none⟩).calls = [] ∧
    (specProxyFetch demoEnv demoUpstream 0 "2025-01-01T00:00:00Z" "2025-01"
      ⟨kvRateGetFails, []⟩ ⟨"GET", "/health", none, none, none⟩).state =
      ⟨kvRateGetFails, []⟩ :=
  c9_health demoEnv demoUpstream 0 "2025-01-01T00:00:00Z" "2025-01"
    ⟨kvRateGetFails, []⟩ ⟨"GET", "/health", none, none, none⟩ rfl rfl

/-- C10: the repackaging of an upstream JSON body is total and defaults —
the public shape is always fully populated; the text defaults to the empty
string when `choices[0].message.content` is absent, and both token
counters default to 0 when the upstream usage block or its fields are
absent. -/
theorem c10_repackaging (j : Json) :
    (candidateTextOf (buildGeminiResponse j)).isSome = true ∧
    (promptTokensOf (buildGeminiResponse j)).isSome = true ∧
    (candTokensOf (buildGeminiResponse j)).isSome = true ∧
    (upChoiceContent j = none →
      candidateTextOf (buildGeminiResponse j) = some (.str "")) ∧
    (j.getField "usage" = none →
      promptTokensOf (buildGeminiResponse j) = some (Json.int 0) ∧
      candTokensOf (buildGeminiResponse j) = some (Json.int 0)) ∧
    ((j.getField "usage").bind (·.getField "prompt_tokens") = none →
      promptTokensOf (buildGeminiResponse j) = some (Json.int 0)) ∧
    ((j.getField "usage").bind (·.getField "completion_tokens") = none →
      candTokensOf (buildGeminiResponse j) = some (Json.int 0)) := by
  have h1 : candidateTextOf (buildGeminiResponse j)
      = some (jsOr (upChoiceContent j) (.str "")) := rfl
  have h2 : promptTokensOf (buildGeminiResponse j)
      = some (jsOr ((j.getField "usage").bind (·.getField "prompt_tokens")) (Json.int 0)) := rfl
  have h3 : candTokensOf (buildGeminiResponse j)
      = some (jsOr ((j.getField "usage").bind (·.getField "completion_tokens")) (Json.int 0)) := rfl
  refine ⟨by rw [h1]; rfl, by rw [h2]; rfl, by rw [h3]; rfl, ?_, ?_, ?_, ?_⟩
  · intro h
    rw [h1, h]
    rfl
  · intro h
    exact ⟨by rw [h2, h]; rfl, by rw [h3, h]; rfl⟩
  · intro h
    rw [h2, h]
    rfl
  · intro h
    rw [h3, h]
    rfl

/-- Witness for C10 at the empty-object upstream body. -/
theorem c10_witness :
    candidateTextOf (buildGeminiResponse Json.objNil) = some (.str "") ∧
    promptTokensOf (buildGeminiResponse Json.objNil) = some (Json.int 0) ∧
    candTokensOf (buildGeminiResponse Json.objNil) = some (Json.int 0) := by
  have h := c10_repackaging Json.objNil
  exact ⟨h.2.2.2.1 rfl, (h.2.2.2.2.1 rfl).1, (h.2.2.2.2.1 rfl).2⟩

/-- C2: fixed-window rate limiting of the worker.  For an authenticated
non-OPTIONS request the counter at `rate_limit:(ip)` is read (0 when
absent); a count above the ceiling 100 yields 429 with no increment and no
upstream call, and otherwise the store afterwards holds count+1 under that
key with a fresh 60-second TTL (the expiry restarts on every increment). -/
theorem c2_rate_limit (env : Env) (up : OpenRouterBody → UpstreamResult)
    (month : String) (kv : KVStore) (req : WorkerRequest) (c : JsNum)
    (hm : (req.method == "OPTIONS") = false)
    (hauth : workerAuthFailed env req = false)
    (hgf : kv.getFails.contains (rateLimitKeyOf req) = false)
    (hpf : kv.putFails.contains (rateLimitKeyOf req) = false)
    (hc : requestCountOf (kvLookup kv (rateLimitKeyOf req)) = some c) :
    (jsGt (some c) ⟨100, 1⟩ = true →
      (workerFetch env up month kv req).result = .ok ⟨429, .str "Rate limit exceeded"⟩ ∧
      (workerFetch env up month kv req).calls = [] ∧
      (workerFetch env up month kv req).kv = kv) ∧
    (jsGt (some c) ⟨100, 1⟩ = false →
      kvFind (workerFetch env up month kv req).kv (rateLimitKeyOf req) =
        some ⟨rateLimitKeyOf req, .str (jsNumToString (some (c.add ⟨1, 1⟩))), 60⟩) := by
  have hget : kvGet kv (rateLimitKeyOf req) = .ok (kvLookup kv (rateLimitKeyOf req)) := by
    unfold kvGet
    rw [hgf]
    rfl
  constructor
  · intro hover
    simp [workerFetch, hm, hauth, hget, hc, hover]
  · intro hunder
    simp only [workerFetch, hm, hauth, hget, hc, hunder, jsAddO, kvPut, hpf,
      Bool.false_eq_true, if_false, if_true]
    split
    all_goals
      obtain hkv | ⟨v, hkv⟩ := workerTry_kv_cases up month
        (kvPutStore kv (rateLimitKeyOf req)
          (.str (jsNumToString (some (JsNum.add c ⟨1, 1⟩)))) 60) req
      · rw [hkv]
        exact kvFind_putStore_self kv _ _ _
      · have hne : "usage:" ++ month ≠ rateLimitKeyOf req := by
          intro hx
          exact rate_key_ne_usage_key (req.clientIP.getD "null") month hx.symm
        rw [hkv, kvFind_putStore_ne _ _ _ _ _ hne]
        exact kvFind_putStore_self kv _ _ _

/-- Witness for C2 at concrete stores: a count of 101 blocks with 429, and
an absent counter is stored as 1 with TTL 60. -/
theorem c2_witness :
    (jsGt (some (⟨101, 1⟩ : JsNum)) ⟨100, 1⟩ = true →
      (workerFetch demoEnv demoUpstream "2025-01"
        ⟨[⟨"rate_limit:1.2.3.4", .str "101", 60⟩], [], []⟩ demoReq).result =
          .ok ⟨429, .str "Rate limit exceeded"⟩ ∧
      (workerFetch demoEnv demoUpstream "2025-01"
        ⟨[⟨"rate_limit:1.2.3.4", .str "101", 60⟩], [], []⟩ demoReq).calls = [] ∧
      (workerFetch demoEnv demoUpstream "2025-01"
        ⟨[⟨"rate_limit:1.2.3.4", .str "101", 60⟩], [], []⟩ demoReq).kv =
          ⟨[⟨"rate_limit:1.2.3.4", .str "101", 60⟩], [], []⟩) ∧
    (jsGt (some (⟨101, 1⟩ : JsNum)) ⟨100, 1⟩ = false →
      kvFind (workerFetch demoEnv demoUpstream "2025-01"
          ⟨[⟨"rate_limit:1.2.3.4", .str "101", 60⟩], [], []⟩ demoReq).kv
        (rateLimitKeyOf demoReq) =
        some ⟨rateLimitKeyOf demoReq,
          .str (jsNumToString (some (JsNum.add ⟨101, 1⟩ ⟨1, 1⟩))), 60⟩) :=
  c2_rate_limit demoEnv demoUpstream "2025-01"
    ⟨[⟨"rate_limit:1.2.3.4", .str "101", 60⟩], [], []⟩ demoReq ⟨101, 1⟩
    rfl rfl rfl rfl rfl

/-- Counterexample to C8 as stated: a caller-supplied temperature of 0 is
not forwarded — the outbound call carries the default 0.7 instead. -/
theorem c8_temperature_zero_counterexample :
    (workerFetch demoEnv demoUpstream "2025-01" emptyKV reqTempZero).calls =
      [⟨"anthropic/claude-3-haiku",
        [⟨"system", .str workerSystemPrompt⟩,
         ⟨"user", .str "Привет, посчитай пакет"⟩],
        .num ⟨7, 10⟩, 4000⟩] ∧
    Json.num ⟨7, 10⟩ ≠ Json.int 0 :=
  ⟨rfl, by decide⟩

/-- C8 (amended): every request forwarded upstream carries exactly one
system message plus one user message holding
`contents[0].parts[0].text || ''`, `max_tokens` 4000, and a temperature
equal to the caller-supplied `generationConfig.temperature` when that
value is present and nonzero, and 0.7 when it is absent — or 0 (any falsy
value). -/
theorem c8_outbound_body (env : Env) (up : OpenRouterBody → UpstreamResult)
    (month : String) (kv : KVStore) (req : WorkerRequest) (b : Json) (c : JsNum)
    (hm : (req.method == "OPTIONS") = false)
    (hauth : workerAuthFailed env req = false)
    (hgf : kv.getFails.contains (rateLimitKeyOf req) = false)
    (hpf : kv.putFails.contains (rateLimitKeyOf req) = false)
    (hc : requestCountOf (kvLookup kv (rateLimitKeyOf req)) = some c)
    (hunder : jsGt (some c) ⟨100, 1⟩ = false)
    (hb : req.body = some b) :
    (workerFetch env up month kv req).calls = [openRouterBodyOf b req.path] ∧
    (openRouterBodyOf b req.path).messages =
      [⟨"system", .str workerSystemPrompt⟩,
       ⟨"user", jsOr (bodyText b) (.str "")⟩] ∧
    (openRouterBodyOf b req.path).maxTokens = 4000 ∧
    (∀ q : JsNum, bodyTemp b = some (.num q) → q.n ≠ 0 →
      (openRouterBodyOf b req.path).temperature = .num q) ∧
    (bodyTemp b = none →
      (openRouterBodyOf b req.path).temperature = .num ⟨7, 10⟩) ∧
    (bodyTemp b = some (Json.int 0) →
      (openRouterBodyOf b req.path).temperature = .num ⟨7, 10⟩) := by
  have hget : kvGet kv (rateLimitKeyOf req) = .ok (kvLookup kv (rateLimitKeyOf req)) := by
    unfold kvGet
    rw [hgf]
    rfl
  refine ⟨?_, rfl, rfl, ?_, ?_, ?_⟩
  · simp only [workerFetch, hm, hauth, hget, hc, hunder, jsAddO, kvPut, hpf,
      Bool.false_eq_true, if_false, if_true]
    split
    all_goals exact workerTry_calls up month _ req b hb
  · intro q hq hqn
    show jsOr (bodyTemp b) (.num ⟨7, 10⟩) = .num q
    rw [hq]
    simp [jsOr, jsTruthy, hqn]
  · intro h
    show jsOr (bodyTemp b) (.num ⟨7, 10⟩) = .num ⟨7, 10⟩
    rw [h]
    rfl
  · intro h
    show jsOr (bodyTemp b) (.num ⟨7, 10⟩) = .num ⟨7, 10⟩
    rw [h]
    simp [jsOr, jsTruthy, Json.int]

/-- Witness for C8 at the demo request (temperature absent). -/
theorem c8_witness :
    (workerFetch demoEnv demoUpstream "2025-01" emptyKV demoReq).calls =
      [openRouterBodyOf demoBody demoReq.path] ∧
    (openRouterBodyOf demoBody demoReq.path).messages =
      [⟨"system", .str workerSystemPrompt⟩,
       ⟨"user", jsOr (bodyText demoBody) (.str "")⟩] ∧
    (openRouterBodyOf demoBody demoReq.path).maxTokens = 4000 ∧
    (∀ q : JsNum, bodyTemp demoBody = some (.num q) → q.n ≠ 0 →
      (openRouterBodyOf demoBody demoReq.path).temperature = .num q) ∧
    (bodyTemp demoBody = none →
      (openRouterBodyOf demoBody demoReq.path).temperature = .num ⟨7, 10⟩) ∧
    (bodyTemp demoBody = some (Json.int 0) →
      (openRouterBodyOf demoBody demoReq.path).temperature = .num ⟨7, 10⟩) :=
  c8_outbound_body demoEnv demoUpstream "2025-01" emptyKV demoReq demoBody ⟨0, 1⟩
    rfl rfl rfl rfl rfl rfl rfl

/-- C4: for a successful upstream call whose JSON body carries
`choices[0].message.content` and integer token counters, the worker's
response repackages the content string verbatim into
`candidates[0].content.parts[0].text` and maps `prompt_tokens` /
`completion_tokens` to `promptTokenCount` / `candidatesTokenCount`. -/
theorem c4_response_translation (env : Env) (up : OpenRouterBody → UpstreamResult)
    (month : String) (kv : KVStore) (req : WorkerRequest) (b u j : Json)
    (c : JsNum) (st : Nat) (s : String) (p ct : Int)
    (hm : (req.method == "OPTIONS") = false)
    (hauth : workerAuthFailed env req = false)
    (hgf : kv.getFails.contains (rateLimitKeyOf req) = false)
    (hpf : kv.putFails.contains (rateLimitKeyOf req) = false)
    (hc : requestCountOf (kvLookup kv (rateLimitKeyOf req)) = some c)
    (hunder : jsGt (some c) ⟨100, 1⟩ = false)
    (hb : req.body = some b)
    (hup : up (openRouterBodyOf b req.path) = .resp st (some j))
    (hlo : 200 ≤ st) (hhi : st < 300)
    (hcontent : upChoiceContent j = some (.str s))
    (husage : j.getField "usage" = some u)
    (hut : jsTruthy u = true)
    (hpt : u.getField "prompt_tokens" = some (Json.int p))
    (hct : u.getField "completion_tokens" = some (Json.int ct))
    (hugf : kv.getFails.contains ("usage:" ++ month) = false)
    (hupf : kv.putFails.contains ("usage:" ++ month) = false)
    (hled : kvFind kv ("usage:" ++ month) = none) :
    ∃ resp, (workerFetch env up month kv req).result = .ok resp ∧
      resp.status = st ∧
      candidateTextOf resp.body = some (.str s) ∧
      promptTokensOf resp.body = some (Json.int p) ∧
      candTokensOf resp.body = some (Json.int ct) := by
  have hget : kvGet kv (rateLimitKeyOf req) = .ok (kvLookup kv (rateLimitKeyOf req)) := by
    unfold kvGet
    rw [hgf]
    rfl
  have hne : rateLimitKeyOf req ≠ "usage:" ++ month :=
    rate_key_ne_usage_key (req.clientIP.getD "null") month
  have hfind1 : kvFind (kvPutStore kv (rateLimitKeyOf req)
      (.str (jsNumToString (some (JsNum.add c ⟨1, 1⟩)))) 60) ("usage:" ++ month) = none := by
    rw [kvFind_putStore_ne _ _ _ _ _ hne, hled]
  have hget2 : kvGet (kvPutStore kv (rateLimitKeyOf req)
      (.str (jsNumToString (some (JsNum.add c ⟨1, 1⟩)))) 60) ("usage:" ++ month) = .ok none := by
    unfold kvGet
    have e1 : (kvPutStore kv (rateLimitKeyOf req)
        (.str (jsNumToString (some (JsNum.add c ⟨1, 1⟩)))) 60).getFails = kv.getFails := rfl
    rw [e1, hugf]
    unfold kvLookup
    rw [hfind1]
    rfl
  have hrec : (recordUsage month (kvPutStore kv (rateLimitKeyOf req)
      (.str (jsNumToString (some (JsNum.add c ⟨1, 1⟩)))) 60) j (buildGeminiResponse j)
      st [openRouterBodyOf b req.path]).result = .ok ⟨st, buildGeminiResponse j⟩ := by
    have e2 : (kvPutStore kv (rateLimitKeyOf req)
        (.str (jsNumToString (some (JsNum.add c ⟨1, 1⟩)))) 60).putFails = kv.putFails := rfl
    simp only [recordUsage, hget2, jsTruthyO, Bool.false_eq_true, if_false,
      jsUpdateLedger, Json.obj, List.foldr, kvPut, e2, hupf]
  have d1 : decide (st < 200) = false := by
    simpa [decide_eq_false_iff_not, Nat.not_lt] using hlo
  have d2 : decide (300 ≤ st) = false := by
    simpa [decide_eq_false_iff_not, Nat.not_le] using hhi
  have htry : (workerTry up month (kvPutStore kv (rateLimitKeyOf req)
      (.str (jsNumToString (some (JsNum.add c ⟨1, 1⟩)))) 60) req).result =
      .ok ⟨st, buildGeminiResponse j⟩ := by
    simp only [workerTry, hb, hup, d1, d2, Bool.or_false, Bool.false_eq_true, if_false,
      husage, jsTruthyO, hut, if_true]
    exact hrec
  have hmain : (workerFetch env up month kv req).result = .ok ⟨st, buildGeminiResponse j⟩ := by
    simp only [workerFetch, hm, hauth, hget, hc, hunder, jsAddO, kvPut, hpf,
      Bool.false_eq_true, if_false, if_true]
    rw [htry]
  refine ⟨⟨st, buildGeminiResponse j⟩, hmain, rfl, ?_, ?_, ?_⟩
  · have h1 : candidateTextOf (buildGeminiResponse j)
        = some (jsOr (upChoiceContent j) (.str "")) := rfl
    rw [h1, hcontent, jsOr_str_self]
  · have h2 : promptTokensOf (buildGeminiResponse j)
        = some (jsOr ((j.getField "usage").bind (·.getField "prompt_tokens")) (Json.int 0)) := rfl
    rw [h2, husage]
    show some (jsOr (u.getField "prompt_tokens") (Json.int 0)) = some (Json.int p)
    rw [hpt, jsOr_int_self]
  · have h3 : candTokensOf (buildGeminiResponse j)
        = some (jsOr ((j.getField "usage").bind (·.getField "completion_tokens")) (Json.int 0)) := rfl
    rw [h3, husage]
    show some (jsOr (u.getField "completion_tokens") (Json.int 0)) = some (Json.int ct)
    rw [hct, jsOr_int_self]

/-- Witness for C4 at the demo request and demo upstream body. -/
theorem c4_witness :
    ∃ resp, (workerFetch demoEnv demoUpstream "2025-01" emptyKV demoReq).result = .ok resp ∧
      resp.status = 200 ∧
      candidateTextOf resp.body = some (.str "Ответ ассистента") ∧
      promptTokensOf resp.body = some (Json.int 50) ∧
      candTokensOf resp.body = some (Json.int 10) :=
  c4_response_translation demoEnv demoUpstream "2025-01" emptyKV demoReq demoBody
    (Json.obj [("prompt_tokens", Json.int 50), ("completion_tokens", Json.int 10)])
    demoUpstreamJson ⟨0, 1⟩ 200 "Ответ ассистента" 50 10
    rfl rfl rfl rfl rfl rfl rfl rfl (by decide) (by decide) rfl rfl rfl rfl rfl rfl rfl rfl

theorem asArray_arr (xs : List Json) : (Json.arr xs).asArray = some xs := by
  induction xs with
  | nil => rfl
  | cons h t ih =>
    show (Json.asArray (Json.arr t)).map (h :: ·) = some (h :: t)
    rw [ih]
    rfl

theorem validateContents_invalid (contents : Option Json)
    (h : contents = none ∨
      ∃ xs, contents = some (Json.arr xs) ∧ (xs.length = 0 ∨ xs.length > 10)) :
    (validateContents contents).1 = false := by
  rcases h with h | ⟨xs, hx, hlen⟩
  · subst h
    rfl
  · subst hx
    unfold validateContents
    have htr : jsTruthyO (some (Json.arr xs)) = true := by
      cases xs <;> rfl
    simp only [htr, Bool.not_true, Bool.false_eq_true, if_false]
    rw [show (some (Json.arr xs)).getD Json.null = Json.arr xs from rfl, asArray_arr]
    rcases hlen with h0 | h10
    · simp [h0]
    · have hne : ¬ xs.length = 0 := by omega
      simp [hne, h10]

theorem specRecordUsage_getFails (month : String) (kv : KVStore) (rd : Json) :
    (specRecordUsage month kv rd).getFails = kv.getFails := by
  simp only [specRecordUsage]
  split
  · split
    · rfl
    · split
      · rfl
      · split
        · rfl
        · rename_i kv2 hok
          simp only [kvPut] at hok
          split at hok
          · exact absurd hok (by simp)
          · injection hok with h2
            rw [← h2]
            rfl
  · rfl

theorem specRecordUsage_putFails (month : String) (kv : KVStore) (rd : Json) :
    (specRecordUsage month kv rd).putFails = kv.putFails := by
  simp only [specRecordUsage]
  split
  · split
    · rfl
    · split
      · rfl
      · split
        · rfl
        · rename_i kv2 hok
          simp only [kvPut] at hok
          split at hok
          · exact absurd hok (by simp)
          · injection hok with h2
            rw [← h2]
            rfl
  · rfl

theorem specRecordUsage_find_ne (month : String) (kv : KVStore) (rd : Json)
    (k : String) (h : "usage:" ++ month ≠ k) :
    kvFind (specRecordUsage month kv rd) k = kvFind kv k := by
  simp only [specRecordUsage]
  split
  · split
    · rfl
    · split
      · rfl
      · split
        · rfl
        · rename_i kv2 hok
          simp only [kvPut] at hok
          split at hok
          · exact absurd hok (by simp)
          · injection hok with h2
            rw [← h2]
            exact kvReplace_find_ne kv.entries _ k h
  · rfl

theorem specRateLimit_pass (kv : KVStore) (k : String) (cnt : JsNum)
    (hgf : kv.getFails.contains k = false)
    (hpf : kv.putFails.contains k = false)
    (hc : requestCountOf (kvLookup kv k) = some cnt)
    (hunder : jsGt (some cnt) ⟨100, 1⟩ = false) :
    specRateLimit kv k =
      (false, kvPutStore kv k (.str (jsNumToString (some (cnt.add ⟨1, 1⟩)))) 60) := by
  unfold specRateLimit kvGet
  rw [hgf]
  simp only [Bool.false_eq_true, if_false, hc, hunder, jsAddO, kvPut, hpf, if_true]

/-- C7: a request body whose `contents` field is missing, or is an array
of length 0 or above 10, is rejected by the validation stage with a 400
before any upstream call, with the state untouched. -/
theorem c7_structure_validation (env : Env) (up : OpenRouterBody → UpstreamResult)
    (now : Nat) (timestamp month : String) (st : SpecState) (req : WorkerRequest)
    (b : Json)
    (hmo : (req.method == "OPTIONS") = false)
    (hh : (req.method == "GET" && req.path == "/health") = false)
    (hb : req.body = some b)
    (hc : b.getField "contents" = none ∨
      ∃ xs, b.getField "contents" = some (Json.arr xs) ∧
        (xs.length = 0 ∨ xs.length > 10)) :
    (specProxyFetch env up now timestamp month st req).response.status = 400 ∧
    (specProxyFetch env up now timestamp month st req).calls = [] ∧
    (specProxyFetch env up now timestamp month st req).state = st := by
  have hv : (validateContents (b.getField "contents")).1 = false :=
    validateContents_invalid _ hc
  simp [specProxyFetch, hmo, hh, hb, hv]

/-- Witness for C7 at a request whose body has no `contents` field. -/
theorem c7_witness :
    (specProxyFetch demoEnv demoUpstream 0 "ts" "2025-01" ⟨emptyKV, []⟩
      ⟨"POST", "/", some "s3cret-client-key", some "1.2.3.4", some Json.objNil⟩).response.status
      = 400 ∧
    (specProxyFetch demoEnv demoUpstream 0 "ts" "2025-01" ⟨emptyKV, []⟩
      ⟨"POST", "/", some "s3cret-client-key", some "1.2.3.4", some Json.objNil⟩).calls = [] ∧
    (specProxyFetch demoEnv demoUpstream 0 "ts" "2025-01" ⟨emptyKV, []⟩
      ⟨"POST", "/", some "s3cret-client-key", some "1.2.3.4", some Json.objNil⟩).state
      = ⟨emptyKV, []⟩ :=
  c7_structure_validation demoEnv demoUpstream 0 "ts" "2025-01" ⟨emptyKV, []⟩
    ⟨"POST", "/", some "s3cret-client-key", some "1.2.3.4", some Json.objNil⟩
    Json.objNil rfl rfl rfl (Or.inl rfl)

/-- C6: cache idempotence of the spec pipeline.  For a cache-eligible
request over a fresh store whose fingerprint is not yet cached, a first
call at `t0` misses (`X-Cache: MISS`) and stores the translated upstream
payload; a second structurally identical call at any `t1` within the
entry's TTL returns the same payload with `X-Cache: HIT` and issues zero
upstream calls. -/
theorem c6_cache_idempotence (env : Env) (up : OpenRouterBody → UpstreamResult)
    (t0 t1 : Nat) (ts0 ts1 month : String)
    (cache0 : List CacheEntry) (req : WorkerRequest) (b j : Json) (stc : Nat)
    (hmo : (req.method == "OPTIONS") = false)
    (hh : (req.method == "GET" && req.path == "/health") = false)
    (hb : req.body = some b)
    (hv : (validateContents (b.getField "contents")).1 = true)
    (hauth : workerAuthFailed env req = false)
    (helig : isCacheable (routeOf b) b = true)
    (hmiss : cacheFind cache0 (cacheKeyOf b (selectModel (routeOf b))) = none)
    (hup : up (specBodyOf b) = .resp stc (some j))
    (hlo : 200 ≤ stc) (hhi : stc < 300)
    (httl : t1 < t0 + taskTTL (routeOf b)) :
    (specProxyFetch env up t1 ts1 month
        (specProxyFetch env up t0 ts0 month ⟨emptyKV, cache0⟩ req).state req).response.body =
      (specProxyFetch env up t0 ts0 month ⟨emptyKV, cache0⟩ req).response.body ∧
    (specProxyFetch env up t1 ts1 month
        (specProxyFetch env up t0 ts0 month ⟨emptyKV, cache0⟩ req).state req).response.xCache =
      some "HIT" ∧
    (specProxyFetch env up t1 ts1 month
        (specProxyFetch env up t0 ts0 month ⟨emptyKV, cache0⟩ req).state req).calls = [] ∧
    (specProxyFetch env up t0 ts0 month ⟨emptyKV, cache0⟩ req).response.xCache =
      some "MISS" := by
  have d1 : decide (stc < 200) = false := by
    simpa [decide_eq_false_iff_not, Nat.not_lt] using hlo
  have d2 : decide (300 ≤ stc) = false := by
    simpa [decide_eq_false_iff_not, Nat.not_le] using hhi
  have hup2 : up ⟨selectModel (routeOf b),
      [⟨"system", .str (selectSystemPrompt (routeOf b))⟩,
       ⟨"user", jsOr (bodyText b) (.str "")⟩],
      jsOr (bodyTemp b) (.num ⟨7, 10⟩), 4000⟩ = .resp stc (some j) := hup
  have hrl1 : specRateLimit emptyKV (rateLimitKeyOf req) =
      (false, kvPutStore emptyKV (rateLimitKeyOf req)
        (.str (jsNumToString (some (JsNum.add ⟨0, 1⟩ ⟨1, 1⟩)))) 60) :=
    specRateLimit_pass emptyKV _ ⟨0, 1⟩ rfl rfl rfl rfl
  have hcr1 : cacheRead cache0 (cacheKeyOf b (selectModel (routeOf b))) t0 = (none, cache0) := by
    unfold cacheRead
    rw [hmiss]
  have hrun1 : specProxyFetch env up t0 ts0 month ⟨emptyKV, cache0⟩ req =
      ⟨⟨200, buildGeminiResponse j, some "MISS"⟩, [specBodyOf b],
       ⟨specRecordUsage month (kvPutStore emptyKV (rateLimitKeyOf req)
            (.str (jsNumToString (some (JsNum.add ⟨0, 1⟩ ⟨1, 1⟩)))) 60) j,
        cacheWrite cache0 (cacheKeyOf b (selectModel (routeOf b)))
          (buildGeminiResponse j) (t0 + taskTTL (routeOf b))⟩⟩ := by
    simp only [specProxyFetch, hmo, hh, hb, hv, Bool.not_true, Bool.false_eq_true, if_false,
      hauth, hrl1, helig, if_true, hcr1, specUpstreamStage, specBodyOf, hup2, d1, d2,
      Bool.or_false]
  have hfindrate2 : kvFind (specRecordUsage month (kvPutStore emptyKV (rateLimitKeyOf req)
      (.str (jsNumToString (some (JsNum.add ⟨0, 1⟩ ⟨1, 1⟩)))) 60) j) (rateLimitKeyOf req) =
      some ⟨rateLimitKeyOf req, .str (jsNumToString (some (JsNum.add ⟨0, 1⟩ ⟨1, 1⟩))), 60⟩ := by
    have hne : "usage:" ++ month ≠ rateLimitKeyOf req := by
      intro hx
      exact rate_key_ne_usage_key (req.clientIP.getD "null") month hx.symm
    rw [specRecordUsage_find_ne month _ j _ hne]
    exact kvFind_putStore_self emptyKV _ _ _
  have hcnt2 : requestCountOf (kvLookup (specRecordUsage month (kvPutStore emptyKV
      (rateLimitKeyOf req) (.str (jsNumToString (some (JsNum.add ⟨0, 1⟩ ⟨1, 1⟩)))) 60) j)
      (rateLimitKeyOf req)) = some ⟨1, 1⟩ := by
    unfold kvLookup
    rw [hfindrate2]
    rfl
  have hgf2 : (specRecordUsage month (kvPutStore emptyKV (rateLimitKeyOf req)
      (.str (jsNumToString (some (JsNum.add ⟨0, 1⟩ ⟨1, 1⟩)))) 60) j).getFails.contains
      (rateLimitKeyOf req) = false := by
    rw [specRecordUsage_getFails]
    rfl
  have hpf2 : (specRecordUsage month (kvPutStore emptyKV (rateLimitKeyOf req)
      (.str (jsNumToString (some (JsNum.add ⟨0, 1⟩ ⟨1, 1⟩)))) 60) j).putFails.contains
      (rateLimitKeyOf req) = false := by
    rw [specRecordUsage_putFails]
    rfl
  have hrl2 : specRateLimit (specRecordUsage month (kvPutStore emptyKV (rateLimitKeyOf req)
      (.str (jsNumToString (some (JsNum.add ⟨0, 1⟩ ⟨1, 1⟩)))) 60) j) (rateLimitKeyOf req) =
      (false, kvPutStore (specRecordUsage month (kvPutStore emptyKV (rateLimitKeyOf req)
          (.str (jsNumToString (some (JsNum.add ⟨0, 1⟩ ⟨1, 1⟩)))) 60) j) (rateLimitKeyOf req)
        (.str (jsNumToString (some (JsNum.add ⟨1, 1⟩ ⟨1, 1⟩)))) 60) :=
    specRateLimit_pass _ _ ⟨1, 1⟩ hgf2 hpf2 hcnt2 rfl
  have hcr2 : cacheRead (cacheWrite cache0 (cacheKeyOf b (selectModel (routeOf b)))
      (buildGeminiResponse j) (t0 + taskTTL (routeOf b)))
      (cacheKeyOf b (selectModel (routeOf b))) t1 =
      (some (buildGeminiResponse j),
       cacheWrite cache0 (cacheKeyOf b (selectModel (routeOf b)))
         (buildGeminiResponse j) (t0 + taskTTL (routeOf b))) := by
    unfold cacheRead cacheWrite cacheFind
    rw [if_pos rfl]
    dsimp only
    rw [if_neg (by omega)]
  have hrun2 : specProxyFetch env up t1 ts1 month
      ⟨specRecordUsage month (kvPutStore emptyKV (rateLimitKeyOf req)
          (.str (jsNumToString (some (JsNum.add ⟨0, 1⟩ ⟨1, 1⟩)))) 60) j,
       cacheWrite cache0 (cacheKeyOf b (selectModel (routeOf b)))
         (buildGeminiResponse j) (t0 + taskTTL (routeOf b))⟩ req =
      ⟨⟨200, buildGeminiResponse j, some "HIT"⟩, [],
       ⟨kvPutStore (specRecordUsage month (kvPutStore emptyKV (rateLimitKeyOf req)
            (.str (jsNumToString (some (JsNum.add ⟨0, 1⟩ ⟨1, 1⟩)))) 60) j) (rateLimitKeyOf req)
          (.str (jsNumToString (some (JsNum.add ⟨1, 1⟩ ⟨1, 1⟩)))) 60,
        cacheWrite cache0 (cacheKeyOf b (selectModel (routeOf b)))
          (buildGeminiResponse j) (t0 + taskTTL (routeOf b))⟩⟩ := by
    simp only [specProxyFetch, hmo, hh, hb, hv, Bool.not_true, Bool.false_eq_true, if_false,
      hauth, hrl2, helig, if_true, hcr2]
  rw [hrun1]
  dsimp only
  rw [hrun2]
  exact ⟨rfl, rfl, rfl, rfl⟩

/-- Witness for C6 at the concrete extraction request over an empty cache:
miss then hit with the same payload and no second upstream call. -/
theorem c6_witness :
    (specProxyFetch demoEnv demoUpstream 200 "ts1" "2025-01"
        (specProxyFetch demoEnv demoUpstream 100 "ts0" "2025-01"
          ⟨emptyKV, []⟩ extractionReq).state extractionReq).response.body =
      (specProxyFetch demoEnv demoUpstream 100 "ts0" "2025-01"
        ⟨emptyKV, []⟩ extractionReq).response.body ∧
    (specProxyFetch demoEnv demoUpstream 200 "ts1" "2025-01"
        (specProxyFetch demoEnv demoUpstream 100 "ts0" "2025-01"
          ⟨emptyKV, []⟩ extractionReq).state extractionReq).response.xCache = some "HIT" ∧
    (specProxyFetch demoEnv demoUpstream 200 "ts1" "2025-01"
        (specProxyFetch demoEnv demoUpstream 100 "ts0" "2025-01"
          ⟨emptyKV, []⟩ extractionReq).state extractionReq).calls = [] ∧
    (specProxyFetch demoEnv demoUpstream 100 "ts0" "2025-01"
        ⟨emptyKV, []⟩ extractionReq).response.xCache = some "MISS" :=
  c6_cache_idempotence demoEnv demoUpstream 100 200 "ts0" "ts1" "2025-01" []
    extractionReq extractionBody demoUpstreamJson 200
    rfl rfl rfl rfl rfl rfl rfl rfl (by decide) (by decide)
    (by decide : (200 : Nat) < 100 + 7200)
